import Mathlib

set_option maxRecDepth 8000

/-!
Shallow embedding of the session-to-worker orchestration core of the
computer-use backend: the worker pool (`WorkerPool` in
`services/worker.py`), the worker lifecycle (`Worker`), the update
multiplexer (`AgentService` in `services/agent_service.py`) and the
connection registry (`StreamHandler` in `services/stream_handler.py`),
together with the `AgentUpdate` pydantic schema from `models/schemas.py`.

Modelling conventions:
- Python dicts keyed by strings become association lists
  (`List (String × α)`); Python sets of websockets become `List Nat`
  (listeners are identified by an opaque `Nat` id).
- `await`ed sub-calls that may raise are parametrised by explicit
  Boolean failure flags (e.g. `InitEnv`); an exception escaping a Python
  function is an `Except.error` / `Option String` result carrying the
  message, with the mutated object state threaded explicitly.
- `datetime.utcnow()` and `uuid.uuid4()` are nondeterministic; timestamps
  are `Nat` parameters and worker ids are drawn from a fresh counter.
-/

/-- Mirror of `alookup`/`dict.get`: first binding of a key in an
association list, as Python dict lookup (keys are unique in a dict). -/
def alookup {α : Type} : List (String × α) → String → Option α
  | [], _ => none
  | (k, v) :: rest, key => if k = key then some v else alookup rest key

/-- Mirror of `d[k] = v` on a key already present: replace the bound value
(every binding of the key, which on a dict-shaped list is the unique one). -/
def updKey {α : Type} : List (String × α) → String → α → List (String × α)
  | [], _, _ => []
  | (k, v0) :: rest, key, v =>
      if k = key then (key, v) :: updKey rest key v else (k, v0) :: updKey rest key v

/-- Mirror of `del d[k]`: drop the binding(s) of a key. -/
def aerase {α : Type} : List (String × α) → String → List (String × α)
  | [], _ => []
  | (k, v) :: rest, key =>
      if k = key then aerase rest key else (k, v) :: aerase rest key

/-- `UpdateType` enum from `models/schemas.py`. -/
inductive UpdateType
  | thinking
  | tool_use
  | tool_result
  | screenshot
  | error
  | complete
deriving DecidableEq

/-- The `.value` string of each `UpdateType` member. -/
def UpdateType.value : UpdateType → String
  | .thinking => "thinking"
  | .tool_use => "tool_use"
  | .tool_result => "tool_result"
  | .screenshot => "screenshot"
  | .error => "error"
  | .complete => "complete"

/-- Values stored in an update's metadata mapping (`Dict[str, Any]` in the
source; only strings, booleans and string-keyed dicts occur at the core's
construction sites). -/
inductive MetaVal
  | s (v : String)
  | b (v : Bool)
  | d (v : List (String × String))
deriving DecidableEq

/-- The `AgentUpdate` pydantic model (`models/schemas.py` lines 87-92):
`update_type`, `content`, `timestamp`, and `update_metadata` with default
`{}` (`Field(default_factory=dict)`). -/
structure AgentUpdate where
  update_type : UpdateType
  content : String
  timestamp : Nat
  update_metadata : List (String × MetaVal)
deriving DecidableEq

/-- Embeds a constructor call of the shape
`AgentUpdate(update_type=t, content=c, timestamp=ts, metadata=m)` as it is
written at every core construction site. The pydantic model's field is
named `update_metadata`, so `metadata` is an unknown keyword: pydantic's
default extra-field behaviour ignores it, and `update_metadata` takes its
default `{}`. The argument `m` is therefore discarded. -/
def AgentUpdate.mkWithMetadataKw (t : UpdateType) (c : String) (ts : Nat)
    (m : List (String × MetaVal)) : AgentUpdate :=
  { update_type := t, content := c, timestamp := ts, update_metadata := [] }

/-- Worker status strings from `services/worker.py` (`self.status` values). -/
inductive WorkerStatus
  | initializing
  | ready
  | processing
  | error
  | failed
  | terminating
  | terminated
deriving DecidableEq

/-- The status string as stored in `self.status`. -/
def WorkerStatus.value : WorkerStatus → String
  | .initializing => "initializing"
  | .ready => "ready"
  | .processing => "processing"
  | .error => "error"
  | .failed => "failed"
  | .terminating => "terminating"
  | .terminated => "terminated"

/-- State of one `Worker` (`services/worker.py` lines 17-36): session id,
generated worker id (`uuid.uuid4()` modelled by a fresh `Nat`), creation
time, status, the VNC port assigned by `_initialize_vnc`, and whether
`self.agent_service` is set (the delegate-engine handle). The
`vm_instance`/`vnc_server` fields stay `None` in the source
(placeholders) and are omitted. -/
structure Worker where
  session_id : String
  worker_id : Nat
  created_at : Nat
  status : WorkerStatus
  vnc_port : Option Nat
  agent_service : Bool
deriving DecidableEq

/-- `Worker.__init__`: status `initializing`, no VNC port, no agent handle. -/
def Worker.new (sid : String) (wid : Nat) (now : Nat) : Worker :=
  { session_id := sid, worker_id := wid, created_at := now,
    status := .initializing, vnc_port := none, agent_service := false }

/-- Environment for one run of `Worker.initialize`: whether each awaited
sub-initializer (`_initialize_vm`, `_initialize_vnc`, `_initialize_agent`)
raises, and the value of Python's interpreter-dependent `hash(session_id)`
used by `_initialize_vnc` for the port. In the current source
`_initialize_vm` and `_initialize_vnc` are placeholders that cannot raise;
the flags model the raise of any of the three awaited calls as exercised
by the `try`/`except` of `initialize`. -/
structure InitEnv where
  vm_fails : Bool
  vnc_fails : Bool
  vnc_hash : Nat
  agent_fails : Bool
deriving DecidableEq

/-- `Worker.initialize` (`services/worker.py` lines 38-58): set status
`initializing`, run `_initialize_vm`, `_initialize_vnc` (which assigns
`vnc_port = 5900 + hash(session_id) % 1000`), `_initialize_agent`; on
success set status `ready`. Any exception from any sub-step is caught by
the single `except`, sets status `failed` and re-raises (returned as
`some msg`). -/
def Worker.initializeWorker (w : Worker) (env : InitEnv) : Worker × Option String :=
  let w0 := { w with status := WorkerStatus.initializing }
  if env.vm_fails then ({ w0 with status := .failed }, some "vm initialization raised")
  else if env.vnc_fails then ({ w0 with status := .failed }, some "vnc initialization raised")
  else
    let w1 := { w0 with vnc_port := some (5900 + env.vnc_hash % 1000) }
    if env.agent_fails then ({ w1 with status := .failed }, some "agent initialization raised")
    else ({ w1 with agent_service := true, status := .ready }, none)

/-- `Worker.cleanup` (`services/worker.py` lines 113-137): set status
`terminating`, release the agent handle and the (absent) VNC/VM resources,
set status `terminated`. `cleanup_fails` models a raise inside one of the
release steps: the exception is logged and re-raised, leaving the worker
in `terminating`. -/
def Worker.cleanup (w : Worker) (cleanup_fails : Bool) : Worker × Option String :=
  let w1 := { w with status := WorkerStatus.terminating }
  if cleanup_fails then (w1, some "cleanup raised")
  else ({ w1 with agent_service := false, status := .terminated }, none)

/-- Observable events of one `WorkerPool.spawn_worker` call: construction
of a `Worker` object and invocation of `Worker.initialize`. -/
inductive PoolEvent
  | constructWorker (wid : Nat)
  | runInitialize (wid : Nat)
deriving DecidableEq

/-- Result of `WorkerPool.spawn_worker`: the returned worker, or the
`RuntimeError` raised at capacity
(`Maximum number of workers (...) reached`), or a propagated
initialization failure. -/
inductive SpawnResult
  | got (w : Worker)
  | capacityError (max : Nat)
  | initError (msg : String)
deriving DecidableEq

/-- `WorkerPool` (`services/worker.py` lines 186-194): dict of workers
keyed by session id, `max_workers = 100`, plus the fresh-id counter
modelling `uuid.uuid4()`. -/
structure WorkerPool where
  workers : List (String × Worker)
  max_workers : Nat
  next_id : Nat
deriving DecidableEq

/-- `WorkerPool.__init__`. -/
def WorkerPool.new : WorkerPool :=
  { workers := [], max_workers := 100, next_id := 0 }

/-- `WorkerPool.spawn_worker` (`services/worker.py` lines 196-224):
if a worker exists for the session, return it (no construction, no
initialization); else if `len(workers) >= max_workers`, raise the
capacity error; else construct a `Worker`, run its initialization, and
register it only on success — an initialization failure propagates and
the pool's dict is untouched (the fresh uuid was still consumed). -/
def WorkerPool.spawn_worker (p : WorkerPool) (sid : String) (env : InitEnv) (now : Nat) :
    SpawnResult × WorkerPool × List PoolEvent :=
  match alookup p.workers sid with
  | some w => (.got w, p, [])
  | none =>
    if p.max_workers ≤ p.workers.length then
      (.capacityError p.max_workers, p, [])
    else
      match (Worker.new sid p.next_id now).initializeWorker env with
      | (w, none) =>
          (.got w,
           { p with next_id := p.next_id + 1, workers := p.workers ++ [(sid, w)] },
           [.constructWorker p.next_id, .runInitialize p.next_id])
      | (_, some e) =>
          (.initError e, { p with next_id := p.next_id + 1 },
           [.constructWorker p.next_id, .runInitialize p.next_id])

/-- `WorkerPool.get_worker`: pure lookup. -/
def WorkerPool.get_worker (p : WorkerPool) (sid : String) : Option Worker :=
  alookup p.workers sid

/-- Result of `WorkerPool.terminate_worker`: `True`, `False`, or a
propagated cleanup exception. -/
inductive TerminateResult
  | terminatedOk
  | notFound
  | cleanupError (msg : String)
deriving DecidableEq

/-- `WorkerPool.terminate_worker` (`services/worker.py` lines 238-261):
absent session returns `False` with no side effects; otherwise run the
worker's cleanup and only then `del` the dict entry — when cleanup raises,
the exception propagates and the `del` is never executed, so the entry
remains (holding the worker mutated to `terminating`). -/
def WorkerPool.terminate_worker (p : WorkerPool) (sid : String) (cleanup_fails : Bool) :
    TerminateResult × WorkerPool :=
  match alookup p.workers sid with
  | none => (.notFound, p)
  | some w =>
    match w.cleanup cleanup_fails with
    | (w1, some e) => (.cleanupError e, { p with workers := updKey p.workers sid w1 })
    | (_, none) => (.terminatedOk, { p with workers := aerase p.workers sid })

/-- Number of `runInitialize` events in a spawn trace. -/
def countInit (evs : List PoolEvent) : Nat :=
  evs.countP (fun e => match e with | .runInitialize _ => true | _ => false)

-- ## AgentService: the update multiplexer (`services/agent_service.py`)

/-- The `ToolResult` consumed by `_tool_result_to_update`: `output`,
`error` and `base64_image` are `str | None` fields; Python truthiness
treats both `None` and `""` as absent. -/
structure ToolResult where
  output : Option String
  error : Option String
  base64_image : Option String
deriving DecidableEq

/-- Python truthiness of a `str | None` value. -/
def truthy : Option String → Bool
  | none => false
  | some s => !s.isEmpty

/-- A content block arriving on the primary source
(`output_callback`): the dict shapes dispatched on by
`_content_block_to_update`; any other `type` value yields no update. -/
inductive ContentBlock
  | text (t : String)
  | thinking (t : String)
  | tool_use (name : String) (input : List (String × String))
  | other
deriving DecidableEq

/-- One delegate-engine run for a single submission: the content blocks
delivered through `output_callback`, the tool results delivered through
`tool_output_callback` (paired with their tool id), and whether
`sampling_loop` raised (carrying the exception text). -/
structure EngineRun where
  blocks : List ContentBlock
  tool_results : List (ToolResult × String)
  failure : Option String
deriving DecidableEq

namespace AgentService

/-- `AgentService._content_block_to_update` (lines 223-263): `text` and
`thinking` blocks become Thinking updates, `tool_use` becomes a ToolUse
update, anything else returns `None`. Every branch passes its metadata
dict through the ignored `metadata` keyword. -/
def _content_block_to_update (session_id : String) (ts : Nat) :
    ContentBlock → Option AgentUpdate
  | .text t =>
      some (AgentUpdate.mkWithMetadataKw .thinking t ts
        [("session_id", .s session_id)])
  | .thinking t =>
      some (AgentUpdate.mkWithMetadataKw .thinking t ts
        [("session_id", .s session_id), ("is_thinking", .b true)])
  | .tool_use nm inp =>
      some (AgentUpdate.mkWithMetadataKw .tool_use ("Using tool: " ++ nm) ts
        [("session_id", .s session_id), ("tool_name", .s nm), ("tool_input", .d inp)])
  | .other => none

/-- `AgentService._tool_result_to_update` (lines 265-289): error outcomes
render `Tool error: <error>` (the full error text, no truncation),
successful outcomes render `Tool output: <output[:200]>...`; image data
appends ` (Screenshot captured)` and a `has_screenshot` key to the local
metadata dict, which is then passed through the ignored `metadata`
keyword. -/
def _tool_result_to_update (session_id : String) (tr : ToolResult)
    (tool_id : String) (ts : Nat) : AgentUpdate :=
  let meta0 : List (String × MetaVal) :=
    [("session_id", .s session_id), ("tool_id", .s tool_id)]
  let cm1 : String × List (String × MetaVal) :=
    if truthy tr.error then
      ("Tool error: " ++ tr.error.getD "", meta0 ++ [("error", .s (tr.error.getD ""))])
    else if truthy tr.output then
      ("Tool output: " ++ (tr.output.getD "").take 200 ++ "...",
       meta0 ++ [("has_output", .b true)])
    else ("", meta0)
  let cm2 : String × List (String × MetaVal) :=
    if truthy tr.base64_image then
      (cm1.1 ++ " (Screenshot captured)", cm1.2 ++ [("has_screenshot", .b true)])
    else cm1
  AgentUpdate.mkWithMetadataKw .tool_result cm2.1 ts cm2.2

/-- `AgentService.process_message` (lines 65-222) for one submission, as
the ordered list of yielded updates. The source drains the two callback
queues by bounded polling, so content and tool-result updates interleave
in an unspecified order; this model serialises one fair drain (content
updates, then tool-result updates). On a `sampling_loop` exception
`run_agent` enqueues an error marker and the loop yields exactly one
Error update before breaking; the terminal Complete update is yielded
after the loop in both cases. The enclosing `try` turns every failure
into yielded updates, so this function never raises. -/
def process_message (session_id : String) (run : EngineRun) (ts : Nat) :
    List AgentUpdate :=
  AgentUpdate.mkWithMetadataKw .thinking
      "Starting to process your request with Computer Use Agent..." ts
      [("session_id", .s session_id)]
    :: (run.blocks.filterMap (_content_block_to_update session_id ts)
        ++ run.tool_results.map (fun p => _tool_result_to_update session_id p.1 p.2 ts)
        ++ (match run.failure with
            | some e =>
                [AgentUpdate.mkWithMetadataKw .error ("Agent error: " ++ e) ts
                  [("session_id", .s session_id)]]
            | none => [])
        ++ [AgentUpdate.mkWithMetadataKw .complete "Agent processing completed" ts
             [("session_id", .s session_id), ("completed", .b true)]])

end AgentService

/-- The error update synthesised by `Worker.process_message` on a raise
out of the agent iterator (`services/worker.py` lines 95-100). -/
def Worker.error_update (w : Worker) (e : String) (ts : Nat) : AgentUpdate :=
  AgentUpdate.mkWithMetadataKw .error ("Error processing message: " ++ e) ts
    [("worker_id", .s (toString w.worker_id)), ("error", .s e)]

/-- `Worker.process_message` (`services/worker.py` lines 60-102): raise
`RuntimeError` when the worker is not `ready` or the agent handle is
missing; otherwise set status `processing`, drain the agent service's
updates and return to `ready`. `iter_fault = some (k, e)` models the
agent iterator itself raising `e` after `k` updates were yielded (the
agent service catches all delegate-engine errors, so this branch fires
only for faults of the iteration itself): the worker then moves to
`error`, yields its synthesised error update, and still resets to
`ready`. -/
def Worker.process_message (w : Worker) (run : EngineRun)
    (iter_fault : Option (Nat × String)) (ts : Nat) :
    Except String (Worker × List AgentUpdate) :=
  if w.status ≠ WorkerStatus.ready then
    .error ("Worker not ready. Status: " ++ w.status.value)
  else if w.agent_service = false then
    .error "Agent service not initialized"
  else
    match iter_fault with
    | none =>
        .ok ({ w with status := .ready },
             AgentService.process_message w.session_id run ts)
    | some (k, e) =>
        .ok ({ w with status := .ready },
             (AgentService.process_message w.session_id run ts).take k
               ++ [w.error_update e ts])

/-- Whether an update is Error-kind. -/
def isErrorUpdate (u : AgentUpdate) : Bool :=
  decide (u.update_type = UpdateType.error)

/-- Number of Error-kind updates in a list. -/
def countErrors (l : List AgentUpdate) : Nat :=
  l.countP isErrorUpdate

-- ## StreamHandler: the connection registry (`services/stream_handler.py`)

/-- `StreamHandler.active_connections`: session id → set of connected
websockets, with listeners as opaque `Nat` ids. -/
abbrev Registry : Type := List (String × List Nat)

/-- The per-update wire message built by `broadcast_update`
(lines 96-102): note `metadata` reads the update's `update_metadata`
field. -/
structure WireMessage where
  type : String
  update_type : String
  content : String
  timestamp : Nat
  metadata : List (String × MetaVal)
deriving DecidableEq

namespace StreamHandler

/-- `StreamHandler._add_connection` (lines 178-183): create the session's
entry on first registration, then add the websocket (set semantics: no
duplicates). -/
def _add_connection (r : Registry) (sid : String) (ws : Nat) : Registry :=
  match alookup r sid with
  | none => r ++ [(sid, [ws])]
  | some conns => updKey r sid (if ws ∈ conns then conns else conns ++ [ws])

/-- `StreamHandler._remove_connection` (lines 185-192): discard the
websocket from the session's set, then delete the entry when its set
became empty. -/
def _remove_connection (r : Registry) (sid : String) (ws : Nat) : Registry :=
  match alookup r sid with
  | none => r
  | some conns =>
      if (conns.filter (fun w => w ≠ ws)).isEmpty then aerase r sid
      else updKey r sid (conns.filter (fun w => w ≠ ws))

/-- The wire message of an update. -/
def wire_of (u : AgentUpdate) : WireMessage :=
  { type := "update", update_type := u.update_type.value, content := u.content,
    timestamp := u.timestamp, metadata := u.update_metadata }

/-- `StreamHandler.broadcast_update` (lines 80-122): fetch the session's
connections (`get(session_id, set())`) and return untouched when the set
is absent or empty; otherwise build the wire message, attempt a send to
every connection (`send_fails ws = true` means `send_json` raised for
`ws`), and afterwards discard each failed connection from the live set —
the session's entry itself is never deleted here, even when the set
becomes empty. Returns the registry after pruning and the attempted
sends. -/
def broadcast_update (r : Registry) (sid : String) (u : AgentUpdate)
    (send_fails : Nat → Bool) : Registry × List (Nat × WireMessage) :=
  match alookup r sid with
  | none => (r, [])
  | some conns =>
      if conns.isEmpty then (r, [])
      else
        (updKey r sid (conns.filter (fun ws => !(send_fails ws))),
         conns.map (fun ws => (ws, wire_of u)))

/-- `StreamHandler.get_connection_count` (lines 234-236). -/
def get_connection_count (r : Registry) (sid : String) : Nat :=
  ((alookup r sid).getD []).length

/-- `StreamHandler.disconnect_all` (lines 242-256): best-effort close of
every listener (external side effect) and deletion of the session's
entry. -/
def disconnect_all (r : Registry) (sid : String) : Registry :=
  aerase r sid

end StreamHandler

/-- Invariant R1 of the spec: no registry entry holds an empty listener
set. -/
def noEmptyEntries (r : Registry) : Prop :=
  ∀ p ∈ r, p.2 ≠ ([] : List Nat)

instance (r : Registry) : Decidable (noEmptyEntries r) := by
  unfold noEmptyEntries
  infer_instance

-- ## Concrete fixtures used by witnesses and counterexamples

/-- An `InitEnv` in which no sub-initializer raises. -/
def allOkEnv : InitEnv :=
  { vm_fails := false, vnc_fails := false, vnc_hash := 0, agent_fails := false }

/-- A concrete initialized worker for session `s1`. -/
def workerEx : Worker :=
  { session_id := "s1", worker_id := 0, created_at := 0,
    status := .ready, vnc_port := some 5900, agent_service := true }

/-- A concrete pool at capacity: one tracked worker, `max_workers = 1`. -/
def capacityPoolEx : WorkerPool :=
  { workers := [("s1", workerEx)], max_workers := 1, next_id := 1 }

/-- An `InitEnv` in which only the VNC/display sub-initializer raises. -/
def vncFailEnv : InitEnv :=
  { vm_fails := false, vnc_fails := true, vnc_hash := 0, agent_fails := false }

/-- The worker produced by spawning session `s` in a fresh pool at time 0. -/
def spawnedWorkerEx : Worker :=
  { session_id := "s", worker_id := 0, created_at := 0,
    status := .ready, vnc_port := some 5900, agent_service := true }

/-- The pool state after spawning session `s` in a fresh pool. -/
def spawnedPoolEx : WorkerPool :=
  { workers := [("s", spawnedWorkerEx)], max_workers := 100, next_id := 1 }

/-- A concrete update used by registry fixtures. -/
def updateEx : AgentUpdate :=
  AgentUpdate.mkWithMetadataKw .thinking "hello" 3 [("session_id", .s "A")]

/-- A concrete registry: listener 1 on session `A`, listener 2 on `B`. -/
def registryEx : Registry := [("A", [1]), ("B", [2])]

/-- A 250-character error text (exceeding the 200-character truncation
bound the spec asserts). -/
def longErrEx : String := String.mk (List.replicate 250 'x')

/-- A tool outcome carrying a long error text and image data. -/
def trErrImgEx : ToolResult :=
  { output := none, error := some longErrEx, base64_image := some "img" }

/-- A concrete delegate-engine run that raises after one text block. -/
def engineRunEx : EngineRun :=
  { blocks := [.text "hi"], tool_results := [], failure := some "boom" }

/-- The initial Thinking update of `AgentService.process_message` for
session `s` at time 0. -/
def firstUpdateEx : AgentUpdate :=
  AgentUpdate.mkWithMetadataKw .thinking
    "Starting to process your request with Computer Use Agent..." 0
    [("session_id", .s "s")]

-- ## Association-list lemmas

theorem alookup_append_single_of_none {α : Type} (l : List (String × α))
    (k : String) (v : α) (h : alookup l k = none) :
    alookup (l ++ [(k, v)]) k = some v := by
  induction l with
  | nil => simp [alookup]
  | cons p rest ih =>
    cases p with
    | mk k0 v0 =>
      rw [alookup] at h
      by_cases hk : k0 = k
      · rw [if_pos hk] at h
        exact absurd h (by simp)
      · rw [if_neg hk] at h
        rw [List.cons_append, alookup, if_neg hk]
        exact ih h

theorem alookup_updKey {α : Type} (l : List (String × α)) (k k2 : String)
    (v : α) : alookup (updKey l k v) k2 =
      if k = k2 then (alookup l k2).map (fun _ => v) else alookup l k2 := by
  induction l with
  | nil => by_cases hk : k = k2 <;> simp [alookup, updKey, hk]
  | cons p rest ih =>
    cases p with
    | mk k0 v0 =>
      by_cases hk : k0 = k
      · subst hk
        rw [updKey, if_pos rfl, alookup, alookup]
        by_cases hk2 : k0 = k2
        · rw [if_pos hk2, if_pos hk2, hk2]
          simp
        · simp [hk2, ih]
      · rw [updKey, if_neg hk, alookup, alookup]
        by_cases hk2 : k0 = k2
        · subst hk2
          have hkne : k ≠ k0 := fun hh => hk hh.symm
          rw [if_pos rfl, if_pos rfl, if_neg hkne]
        · simp [hk2, ih]

theorem alookup_aerase {α : Type} (l : List (String × α)) (k k2 : String) :
    alookup (aerase l k) k2 = if k = k2 then none else alookup l k2 := by
  induction l with
  | nil => by_cases hk : k = k2 <;> simp [alookup, aerase, hk]
  | cons p rest ih =>
    cases p with
    | mk k0 v0 =>
      by_cases hk : k0 = k
      · subst hk
        rw [aerase, if_pos rfl, ih, alookup]
        by_cases hk2 : k0 = k2
        · rw [if_pos hk2, if_pos hk2]
        · simp [hk2]
      · rw [aerase, if_neg hk, alookup, alookup]
        by_cases hk2 : k0 = k2
        · subst hk2
          have hkne : k ≠ k0 := fun hh => hk hh.symm
          rw [if_pos rfl, if_pos rfl, if_neg hkne]
        · simp [hk2, ih]

-- ## Claims C1, C2, C10 about WorkerPool.spawn_worker

/-- C1: in a pool whose tracked live-worker count has reached the
configured maximum, `spawn_worker` for a session with no live worker
fails with the capacity error and mutates nothing: the result is the
capacity failure, the pool (workers dict and id counter alike) is
returned unchanged, and the event trace is empty — no `Worker` is
constructed and initialization is never invoked. -/
theorem spawn_at_capacity_mutates_nothing (p : WorkerPool) (sid : String)
    (env : InitEnv) (now : Nat)
    (habs : alookup p.workers sid = none)
    (hcap : p.max_workers ≤ p.workers.length) :
    p.spawn_worker sid env now = (.capacityError p.max_workers, p, []) := by
  unfold WorkerPool.spawn_worker
  rw [habs]
  simp [hcap]

/-- Witness for `spawn_at_capacity_mutates_nothing` at a concrete
one-worker pool with `max_workers = 1`. -/
theorem spawn_at_capacity_mutates_nothing_witness :
    alookup capacityPoolEx.workers "s2" = none
    ∧ capacityPoolEx.max_workers ≤ capacityPoolEx.workers.length
    ∧ capacityPoolEx.spawn_worker "s2" allOkEnv 5
        = (.capacityError 1, capacityPoolEx, []) :=
  ⟨by decide, by decide,
   spawn_at_capacity_mutates_nothing capacityPoolEx "s2" allOkEnv 5
     (by decide) (by decide)⟩

/-- C10: when the session already has a live worker, `spawn_worker`
returns that worker unchanged even with the pool at (or beyond) the
configured maximum: the existence check precedes the capacity check, so
the capacity bound only applies to sessions without a worker. -/
theorem spawn_existing_bypasses_capacity (p : WorkerPool) (sid : String)
    (env : InitEnv) (now : Nat) (w : Worker)
    (hw : alookup p.workers sid = some w)
    (hcap : p.max_workers ≤ p.workers.length) :
    p.spawn_worker sid env now = (.got w, p, []) := by
  unfold WorkerPool.spawn_worker
  rw [hw]

/-- Witness for `spawn_existing_bypasses_capacity`: a full pool
(`max_workers = 1`, one worker) still returns the existing worker. -/
theorem spawn_existing_bypasses_capacity_witness :
    alookup capacityPoolEx.workers "s1" = some workerEx
    ∧ capacityPoolEx.max_workers ≤ capacityPoolEx.workers.length
    ∧ capacityPoolEx.spawn_worker "s1" allOkEnv 5
        = (.got workerEx, capacityPoolEx, []) :=
  ⟨by decide, by decide,
   spawn_existing_bypasses_capacity capacityPoolEx "s1" allOkEnv 5
     workerEx (by decide) (by decide)⟩

/-- C2: spawning twice for the same session with no intervening terminate
returns the same worker object both times (hence the same `worker_id`),
the second call performs no pool mutation and emits no construction or
initialization event, and initialization runs at most once across the two
calls (the first call's trace holds at most one `runInitialize`). -/
theorem spawn_twice_idempotent (p p2 : WorkerPool) (sid : String)
    (env1 env2 : InitEnv) (n1 n2 : Nat) (w : Worker) (evs : List PoolEvent)
    (h : p.spawn_worker sid env1 n1 = (.got w, p2, evs)) :
    p2.spawn_worker sid env2 n2 = (.got w, p2, []) ∧ countInit evs ≤ 1 := by
  unfold WorkerPool.spawn_worker at h
  cases hl : alookup p.workers sid with
  | some w0 =>
    rw [hl] at h
    simp only [Prod.mk.injEq, SpawnResult.got.injEq] at h
    obtain ⟨hw, hp, hevs⟩ := h
    subst hw
    subst hp
    subst hevs
    constructor
    · unfold WorkerPool.spawn_worker
      rw [hl]
    · simp [countInit]
  | none =>
    rw [hl] at h
    by_cases hcap : p.max_workers ≤ p.workers.length
    · rw [if_pos hcap] at h
      simp at h
    · rw [if_neg hcap] at h
      cases hini : (Worker.new sid p.next_id n1).initializeWorker env1 with
      | mk w1 oe =>
        rw [hini] at h
        cases oe with
        | none =>
          simp only [Prod.mk.injEq, SpawnResult.got.injEq] at h
          obtain ⟨hw, hp, hevs⟩ := h
          subst hw
          constructor
          · unfold WorkerPool.spawn_worker
            have hlook : alookup p2.workers sid = some w1 := by
              rw [← hp]
              exact alookup_append_single_of_none p.workers sid w1 hl
            rw [hlook]
          · rw [← hevs]
            simp [countInit, List.countP_cons]
        | some e =>
          simp at h

/-- Witness for `spawn_twice_idempotent`: spawning `s` in a fresh pool and
spawning it again on the resulting pool. -/
theorem spawn_twice_idempotent_witness :
    WorkerPool.new.spawn_worker "s" allOkEnv 0
      = (.got spawnedWorkerEx, spawnedPoolEx,
         [.constructWorker 0, .runInitialize 0])
    ∧ (spawnedPoolEx.spawn_worker "s" allOkEnv 1
        = (.got spawnedWorkerEx, spawnedPoolEx, [])
       ∧ countInit [PoolEvent.constructWorker 0, PoolEvent.runInitialize 0] ≤ 1) :=
  ⟨by decide,
   spawn_twice_idempotent WorkerPool.new spawnedPoolEx "s" allOkEnv allOkEnv 0 1
     spawnedWorkerEx [PoolEvent.constructWorker 0, PoolEvent.runInitialize 0]
     (by decide)⟩

/-- C4 counterexample: `terminate_worker` with a raising cleanup does NOT
remove the worker from the pool's bookkeeping — on the concrete
one-worker pool the entry for `s1` is still present (now in state
`terminating`) after the failed call, refuting the claim that the pool no
longer tracks a worker for that session. -/
theorem terminate_cleanup_failure_keeps_entry :
    alookup (capacityPoolEx.terminate_worker "s1" true).2.workers "s1" ≠ none
    ∧ alookup (capacityPoolEx.terminate_worker "s1" true).2.workers "s1"
        = some { workerEx with status := .terminating } := by
  decide

/-- C4 (amended): `terminate_worker` with an absent session returns
`False` with no side effects; with a tracked worker it runs cleanup, and
when cleanup raises, the exception propagates and the worker REMAINS in
the pool's bookkeeping (mutated to `terminating`); only when cleanup
succeeds is the worker removed. -/
theorem terminate_worker_semantics (p : WorkerPool) (sid : String) (cf : Bool) :
    (alookup p.workers sid = none → p.terminate_worker sid cf = (.notFound, p))
    ∧ (∀ w, alookup p.workers sid = some w → cf = true →
        p.terminate_worker sid cf
          = (.cleanupError "cleanup raised",
             { p with workers := updKey p.workers sid { w with status := .terminating } })
        ∧ alookup (p.terminate_worker sid cf).2.workers sid
            = some { w with status := .terminating })
    ∧ (∀ w, alookup p.workers sid = some w → cf = false →
        (p.terminate_worker sid cf).1 = .terminatedOk
        ∧ alookup (p.terminate_worker sid cf).2.workers sid = none) := by
  refine ⟨?_, ?_, ?_⟩
  · intro h
    unfold WorkerPool.terminate_worker
    rw [h]
  · intro w h hcf
    subst hcf
    have hterm : p.terminate_worker sid true
        = (.cleanupError "cleanup raised",
           { p with workers := updKey p.workers sid { w with status := .terminating } }) := by
      unfold WorkerPool.terminate_worker
      rw [h]
      simp [Worker.cleanup]
    refine ⟨hterm, ?_⟩
    rw [hterm]
    simp [alookup_updKey, h]
  · intro w h hcf
    subst hcf
    have hterm : p.terminate_worker sid false
        = (.terminatedOk, { p with workers := aerase p.workers sid }) := by
      unfold WorkerPool.terminate_worker
      rw [h]
      simp [Worker.cleanup]
    rw [hterm]
    exact ⟨rfl, by simp [alookup_aerase]⟩

/-- Witness for `terminate_worker_semantics`: successful termination of
`s1` on the concrete one-worker pool removes the entry. -/
theorem terminate_worker_semantics_witness :
    alookup capacityPoolEx.workers "s1" = some workerEx
    ∧ ((capacityPoolEx.terminate_worker "s1" false).1 = .terminatedOk
       ∧ alookup (capacityPoolEx.terminate_worker "s1" false).2.workers "s1" = none) :=
  ⟨by decide,
   (terminate_worker_semantics capacityPoolEx "s1" false).2.2 workerEx (by decide) rfl⟩

/-- C5 counterexample: a raise of the display/VNC sub-initializer during
`Worker.initialize` is NOT best-effort: the worker ends in status
`failed` (not `ready`) and the error propagates, because the single
`try`/`except` of `initialize` wraps `_initialize_vnc` together with the
other sub-steps. -/
theorem initialize_vnc_failure_not_ready :
    ((Worker.new "s1" 7 0).initializeWorker vncFailEnv).1.status ≠ WorkerStatus.ready
    ∧ ((Worker.new "s1" 7 0).initializeWorker vncFailEnv).1.status = WorkerStatus.failed
    ∧ ((Worker.new "s1" 7 0).initializeWorker vncFailEnv).2 ≠ none := by
  decide

/-- C5 (amended): every sub-step failure of `Worker.initialize` — VM,
display/VNC, or delegate-engine handle — moves the worker to the terminal
`failed` state and propagates the error; only when all three sub-steps
succeed does the worker reach `ready` (in the current source the VM and
VNC sub-steps are placeholders that never raise, so only the
delegate-engine step can actually fail). -/
theorem initialize_any_failure_is_fatal (w : Worker) (env : InitEnv) :
    ((env.vm_fails = true ∨ env.vnc_fails = true ∨ env.agent_fails = true) →
       ((w.initializeWorker env).1.status = .failed ∧ (w.initializeWorker env).2 ≠ none))
    ∧ (env.vm_fails = false → env.vnc_fails = false → env.agent_fails = false →
       ((w.initializeWorker env).1.status = .ready ∧ (w.initializeWorker env).2 = none)) := by
  unfold Worker.initializeWorker
  cases hvm : env.vm_fails <;> cases hvnc : env.vnc_fails <;>
    cases hag : env.agent_fails <;> simp

/-- Witness for `initialize_any_failure_is_fatal` at the concrete
VNC-failure environment. -/
theorem initialize_any_failure_is_fatal_witness :
    (vncFailEnv.vm_fails = true ∨ vncFailEnv.vnc_fails = true
      ∨ vncFailEnv.agent_fails = true)
    ∧ (((Worker.new "s1" 7 0).initializeWorker vncFailEnv).1.status = .failed
       ∧ ((Worker.new "s1" 7 0).initializeWorker vncFailEnv).2 ≠ none) :=
  ⟨by decide,
   (initialize_any_failure_is_fatal (Worker.new "s1" 7 0) vncFailEnv).1 (by decide)⟩

-- ## Further association-list lemmas for the registry

theorem mem_aerase {α : Type} {l : List (String × α)} {k : String}
    {p : String × α} (h : p ∈ aerase l k) : p ∈ l := by
  induction l with
  | nil => simpa [aerase] using h
  | cons q rest ih =>
    cases q with
    | mk k0 v0 =>
      rw [aerase] at h
      by_cases hk : k0 = k
      · rw [if_pos hk] at h
        exact List.mem_cons_of_mem _ (ih h)
      · rw [if_neg hk] at h
        rcases List.mem_cons.mp h with h | h
        · exact h ▸ List.mem_cons_self _ _
        · exact List.mem_cons_of_mem _ (ih h)

theorem mem_updKey {α : Type} {l : List (String × α)} {k : String} {v : α}
    {p : String × α} (h : p ∈ updKey l k v) : p = (k, v) ∨ p ∈ l := by
  induction l with
  | nil => simp [updKey] at h
  | cons q rest ih =>
    cases q with
    | mk k0 v0 =>
      rw [updKey] at h
      by_cases hk : k0 = k
      · rw [if_pos hk] at h
        rcases List.mem_cons.mp h with h | h
        · exact Or.inl h
        · rcases ih h with h | h
          · exact Or.inl h
          · exact Or.inr (List.mem_cons_of_mem _ h)
      · rw [if_neg hk] at h
        rcases List.mem_cons.mp h with h | h
        · exact Or.inr (h ▸ List.mem_cons_self _ _)
        · rcases ih h with h | h
          · exact Or.inl h
          · exact Or.inr (List.mem_cons_of_mem _ h)

-- ## Claims C6, C7 about the StreamHandler registry

/-- C6 counterexample: pruning a failed listener during broadcast leaves
the session's entry in place with an empty set — on a registry with one
listener on `A` whose delivery fails, the entry for `A` survives the
broadcast as `some []`, refuting "no entry with an empty listener set
persists after pruning of failed listeners during broadcast". -/
theorem broadcast_prune_leaves_empty_entry :
    alookup (StreamHandler.broadcast_update [("A", [1])] "A" updateEx
        (fun _ => true)).1 "A" = some []
    ∧ ¬ noEmptyEntries (StreamHandler.broadcast_update [("A", [1])] "A" updateEx
        (fun _ => true)).1 := by
  decide

/-- C6 (amended): invariant R1 holds across `_remove_connection` and
`disconnect_all` — no entry with an empty listener set persists, and
after the last listener of a session unregisters its entry is gone and
`get_connection_count` reports 0 — but pruning failed listeners during
`broadcast_update` keeps the session's entry, merely filtering its set
(which may thus remain empty in the registry). -/
theorem registry_empty_entry_cleanup (r : Registry) (sid : String) (ws : Nat)
    (u : AgentUpdate) (f : Nat → Bool) :
    (noEmptyEntries r → noEmptyEntries (StreamHandler._remove_connection r sid ws))
    ∧ (noEmptyEntries r → noEmptyEntries (StreamHandler.disconnect_all r sid))
    ∧ (alookup r sid = some [ws] →
        alookup (StreamHandler._remove_connection r sid ws) sid = none
        ∧ StreamHandler.get_connection_count
            (StreamHandler._remove_connection r sid ws) sid = 0)
    ∧ (∀ conns, alookup r sid = some conns → conns ≠ [] →
        alookup (StreamHandler.broadcast_update r sid u f).1 sid
          = some (conns.filter (fun w => !(f w)))) := by
  refine ⟨?_, ?_, ?_, ?_⟩
  · intro hne
    unfold StreamHandler._remove_connection
    cases hl : alookup r sid with
    | none => exact hne
    | some conns =>
      simp only [hl]
      by_cases hemp : (conns.filter (fun w => w ≠ ws)).isEmpty = true
      · rw [if_pos hemp]
        intro p hp
        exact hne p (mem_aerase hp)
      · rw [if_neg hemp]
        intro p hp
        rcases mem_updKey hp with h | h
        · subst h
          intro hnil
          simp only at hnil
          rw [hnil] at hemp
          exact hemp rfl
        · exact hne p h
  · intro hne
    unfold StreamHandler.disconnect_all
    intro p hp
    exact hne p (mem_aerase hp)
  · intro hl
    unfold StreamHandler._remove_connection
    simp only [hl]
    have hemp : (([ws] : List Nat).filter (fun w => w ≠ ws)).isEmpty = true := by simp
    rw [if_pos hemp]
    refine ⟨?_, ?_⟩
    · rw [alookup_aerase]
      simp
    · unfold StreamHandler.get_connection_count
      rw [alookup_aerase]
      simp
  · intro conns hl hne
    unfold StreamHandler.broadcast_update
    simp only [hl]
    have hemp : conns.isEmpty = false := by
      cases conns with
      | nil => exact absurd rfl hne
      | cons a l => rfl
    rw [hemp]
    simp only [Bool.false_eq_true, if_false]
    rw [alookup_updKey]
    simp [hl]

/-- Witness for `registry_empty_entry_cleanup`: unregistering the only
listener of session `A` on the two-session registry deletes its entry and
keeps R1. -/
theorem registry_empty_entry_cleanup_witness :
    noEmptyEntries registryEx
    ∧ noEmptyEntries (StreamHandler._remove_connection registryEx "A" 1)
    ∧ (alookup (StreamHandler._remove_connection registryEx "A" 1) "A" = none
       ∧ StreamHandler.get_connection_count
           (StreamHandler._remove_connection registryEx "A" 1) "A" = 0) :=
  ⟨by decide,
   (registry_empty_entry_cleanup registryEx "A" 1 updateEx (fun _ => false)).1
     (by decide),
   (registry_empty_entry_cleanup registryEx "A" 1 updateEx (fun _ => false)).2.2.1
     (by decide)⟩

/-- C7: broadcast isolation. With listener `l1` registered on session `A`
and `l2` registered on a distinct session `B` (and not on `A`),
`broadcast_update A u` attempts delivery of the wire message of `u` to
exactly the listeners registered on `A` — in particular to `l1` and never
to `l2`; and broadcasting to a session with zero registered listeners
returns with no deliveries and no registry change. -/
theorem broadcast_isolation (r : Registry) (A B : String) (l1 l2 : Nat)
    (u : AgentUpdate) (f : Nat → Bool) :
    (∀ connsA connsB, A ≠ B → alookup r A = some connsA →
        alookup r B = some connsB →
        l1 ∈ connsA → l2 ∈ connsB → l2 ∉ connsA →
        ((StreamHandler.broadcast_update r A u f).2.map Prod.fst = connsA
         ∧ (l1, StreamHandler.wire_of u) ∈ (StreamHandler.broadcast_update r A u f).2
         ∧ ∀ m, (l2, m) ∉ (StreamHandler.broadcast_update r A u f).2))
    ∧ ((alookup r A).getD [] = [] →
        StreamHandler.broadcast_update r A u f = (r, [])) := by
  constructor
  · intro connsA connsB hAB hA hB h1 h2 hnot
    have hemp : connsA.isEmpty = false := by
      cases connsA with
      | nil => simp at h1
      | cons a l => rfl
    have hbc : StreamHandler.broadcast_update r A u f
        = (updKey r A (connsA.filter (fun ws => !(f ws))),
           connsA.map (fun ws => (ws, StreamHandler.wire_of u))) := by
      unfold StreamHandler.broadcast_update
      simp only [hA, hemp, Bool.false_eq_true, if_false]
    rw [hbc]
    refine ⟨?_, ?_, ?_⟩
    · simp [Function.comp_def]
    · exact List.mem_map.mpr ⟨l1, h1, rfl⟩
    · intro m hm
      rcases List.mem_map.mp hm with ⟨ws, hws, hpair⟩
      have : ws = l2 := congrArg Prod.fst hpair
      exact hnot (this ▸ hws)
  · intro hz
    unfold StreamHandler.broadcast_update
    cases hA : alookup r A with
    | none => simp only [hA]
    | some conns =>
      rw [hA] at hz
      simp only [Option.getD] at hz
      simp only [hA, hz]
      rfl

/-- Witness for `broadcast_isolation` on the concrete two-session
registry: broadcast on `A` attempts delivery exactly to listener 1 and
never to listener 2. -/
theorem broadcast_isolation_witness :
    ("A" : String) ≠ "B"
    ∧ alookup registryEx "A" = some [1]
    ∧ alookup registryEx "B" = some [2]
    ∧ 1 ∈ ([1] : List Nat) ∧ 2 ∈ ([2] : List Nat) ∧ 2 ∉ ([1] : List Nat)
    ∧ ((StreamHandler.broadcast_update registryEx "A" updateEx
          (fun _ => false)).2.map Prod.fst = [1]
       ∧ (1, StreamHandler.wire_of updateEx)
           ∈ (StreamHandler.broadcast_update registryEx "A" updateEx
                (fun _ => false)).2
       ∧ (2, StreamHandler.wire_of updateEx)
           ∉ (StreamHandler.broadcast_update registryEx "A" updateEx
                (fun _ => false)).2) := by
  have h := (broadcast_isolation registryEx "A" "B" 1 2 updateEx
      (fun _ => false)).1 [1] [2]
    (by decide) (by decide) (by decide) (by decide) (by decide) (by decide)
  exact ⟨by decide, by decide, by decide, by decide, by decide, by decide,
    h.1, h.2.1, h.2.2 (StreamHandler.wire_of updateEx)⟩

-- ## Helper lemmas on update kinds and metadata

theorem content_block_metadata_empty (sid : String) (ts : Nat)
    (cb : ContentBlock) (u : AgentUpdate)
    (h : AgentService._content_block_to_update sid ts cb = some u) :
    u.update_metadata = [] := by
  cases cb with
  | text t =>
    rw [AgentService._content_block_to_update] at h
    rw [← Option.some.inj h]
    rfl
  | thinking t =>
    rw [AgentService._content_block_to_update] at h
    rw [← Option.some.inj h]
    rfl
  | tool_use nm inp =>
    rw [AgentService._content_block_to_update] at h
    rw [← Option.some.inj h]
    rfl
  | other =>
    rw [AgentService._content_block_to_update] at h
    exact Option.noConfusion h

theorem content_block_not_error (sid : String) (ts : Nat)
    (cb : ContentBlock) (u : AgentUpdate)
    (h : AgentService._content_block_to_update sid ts cb = some u) :
    isErrorUpdate u = false := by
  cases cb with
  | text t =>
    rw [AgentService._content_block_to_update] at h
    rw [← Option.some.inj h]
    rfl
  | thinking t =>
    rw [AgentService._content_block_to_update] at h
    rw [← Option.some.inj h]
    rfl
  | tool_use nm inp =>
    rw [AgentService._content_block_to_update] at h
    rw [← Option.some.inj h]
    rfl
  | other =>
    rw [AgentService._content_block_to_update] at h
    exact Option.noConfusion h

theorem countErrors_content_blocks (sid : String) (ts : Nat)
    (blocks : List ContentBlock) :
    countErrors (blocks.filterMap
      (AgentService._content_block_to_update sid ts)) = 0 := by
  rw [countErrors, List.countP_eq_zero]
  intro u hu
  rcases List.mem_filterMap.mp hu with ⟨b, _, hb⟩
  rw [content_block_not_error sid ts b u hb]
  exact Bool.false_ne_true

theorem countErrors_tool_results (sid : String) (ts : Nat)
    (trs : List (ToolResult × String)) :
    countErrors (trs.map
      (fun p => AgentService._tool_result_to_update sid p.1 p.2 ts)) = 0 := by
  rw [countErrors, List.countP_eq_zero]
  intro u hu
  rcases List.mem_map.mp hu with ⟨p, _, hp⟩
  rw [← hp]
  have hfalse : isErrorUpdate
      (AgentService._tool_result_to_update sid p.1 p.2 ts) = false := rfl
  rw [hfalse]
  exact Bool.false_ne_true

-- ## Claim C3 about submission-error self-healing

/-- C3: when the delegate engine raises during a submission on a ready
worker (with its agent handle set), `Worker.process_message` completes
without raising, the worker's status after the update sequence is fully
drained is `ready` (not `error`, not `failed`), and exactly one
Error-kind update occurs among the updates forwarded for that
submission. -/
theorem submission_error_self_heals (w : Worker) (blocks : List ContentBlock)
    (trs : List (ToolResult × String)) (e : String) (ts : Nat)
    (hs : w.status = .ready) (ha : w.agent_service = true) :
    w.process_message { blocks := blocks, tool_results := trs, failure := some e }
        none ts
      = .ok ({ w with status := .ready },
             AgentService.process_message w.session_id
               { blocks := blocks, tool_results := trs, failure := some e } ts)
    ∧ countErrors (AgentService.process_message w.session_id
        { blocks := blocks, tool_results := trs, failure := some e } ts) = 1 := by
  constructor
  · unfold Worker.process_message
    rw [hs, ha]
    simp
  · have hA := countErrors_content_blocks w.session_id ts blocks
    have hB := countErrors_tool_results w.session_id ts trs
    rw [countErrors] at hA hB ⊢
    simp only [AgentService.process_message, List.countP_cons, List.countP_append]
    rw [hA, hB]
    simp [isErrorUpdate, AgentUpdate.mkWithMetadataKw]

/-- Witness for `submission_error_self_heals`: a ready worker processing
the concrete failing engine run. -/
theorem submission_error_self_heals_witness :
    spawnedWorkerEx.status = WorkerStatus.ready
    ∧ spawnedWorkerEx.agent_service = true
    ∧ (spawnedWorkerEx.process_message engineRunEx none 0
        = .ok ({ spawnedWorkerEx with status := .ready },
               AgentService.process_message spawnedWorkerEx.session_id engineRunEx 0)
       ∧ countErrors (AgentService.process_message
           spawnedWorkerEx.session_id engineRunEx 0) = 1) :=
  ⟨rfl, rfl,
   submission_error_self_heals spawnedWorkerEx [.text "hi"] [] "boom" 0 rfl rfl⟩

-- ## Claim C8 about tool-result translation

/-- C8 (amended): `_tool_result_to_update` produces exactly one
ToolResult-kind update; error outcomes render the FULL error text with no
truncation, successful outcomes render the output truncated to 200
characters (followed by `...`); when image data is present
` (Screenshot captured)` is appended to the content and a
`has_screenshot` key is added to the local metadata dict — but that dict
is passed through the ignored `metadata` keyword, so the constructed
update's stored metadata is empty and carries no flag. -/
theorem tool_result_translation (session_id tool_id : String)
    (tr : ToolResult) (ts : Nat) :
    (AgentService._tool_result_to_update session_id tr tool_id ts).update_type
        = UpdateType.tool_result
    ∧ (truthy tr.error = true →
        (AgentService._tool_result_to_update session_id tr tool_id ts).content
          = (if truthy tr.base64_image
             then "Tool error: " ++ tr.error.getD "" ++ " (Screenshot captured)"
             else "Tool error: " ++ tr.error.getD ""))
    ∧ (truthy tr.error = false → truthy tr.output = true →
        (AgentService._tool_result_to_update session_id tr tool_id ts).content
          = (if truthy tr.base64_image
             then "Tool output: " ++ (tr.output.getD "").take 200 ++ "..."
               ++ " (Screenshot captured)"
             else "Tool output: " ++ (tr.output.getD "").take 200 ++ "..."))
    ∧ (AgentService._tool_result_to_update session_id tr tool_id ts).update_metadata
        = [] := by
  unfold AgentService._tool_result_to_update
  cases he : truthy tr.error <;> cases hb : truthy tr.base64_image <;>
    cases ho : truthy tr.output <;>
      simp [AgentUpdate.mkWithMetadataKw]

/-- Witness for `tool_result_translation`: the concrete error-plus-image
outcome renders the full error text with the screenshot suffix and an
empty stored metadata. -/
theorem tool_result_translation_witness :
    truthy trErrImgEx.error = true
    ∧ ((AgentService._tool_result_to_update "s" trErrImgEx "t1" 0).update_type
        = UpdateType.tool_result
       ∧ (AgentService._tool_result_to_update "s" trErrImgEx "t1" 0).content
          = (if truthy trErrImgEx.base64_image
             then "Tool error: " ++ trErrImgEx.error.getD ""
               ++ " (Screenshot captured)"
             else "Tool error: " ++ trErrImgEx.error.getD "")
       ∧ (AgentService._tool_result_to_update "s" trErrImgEx "t1" 0).update_metadata
          = []) :=
  ⟨rfl,
   (tool_result_translation "s" "t1" trErrImgEx 0).1,
   (tool_result_translation "s" "t1" trErrImgEx 0).2.1 rfl,
   (tool_result_translation "s" "t1" trErrImgEx 0).2.2.2⟩

/-- C8 counterexample: for a concrete error outcome of 250 characters
carrying image data, the rendered content contains the complete error
text (no 200-character truncation), and the constructed update's stored
metadata is empty — it does not contain the `hasScreenshot` flag the
claim asserts. -/
theorem tool_result_error_untruncated_flag_lost :
    (AgentService._tool_result_to_update "s" trErrImgEx "t1" 0).content
      = "Tool error: " ++ longErrEx ++ " (Screenshot captured)"
    ∧ 200 < longErrEx.length
    ∧ (AgentService._tool_result_to_update "s" trErrImgEx "t1" 0).update_metadata
      = [] := by
  refine ⟨rfl, ?_, rfl⟩
  decide

-- ## Claim C9: every core update carries empty stored metadata

/-- C9: every update constructed by the core — the multiplexer's initial
Thinking, terminal Complete and Error updates, its content-block and
tool-result translations, and the worker's synthesised error update — has
`update_metadata = {}` because every construction site passes its dict
through the unknown `metadata` keyword, which the `AgentUpdate` schema
ignores while `update_metadata` defaults to `{}`; consequently the
`metadata` object of every wire message broadcast to listeners equals the
update's (empty) stored metadata. -/
theorem core_updates_metadata_empty :
    (∀ t c ts m, (AgentUpdate.mkWithMetadataKw t c ts m).update_metadata = [])
    ∧ (∀ sid run ts u, u ∈ AgentService.process_message sid run ts →
        u.update_metadata = [])
    ∧ (∀ w e ts, (Worker.error_update w e ts).update_metadata = [])
    ∧ (∀ sid ts cb u, AgentService._content_block_to_update sid ts cb = some u →
        u.update_metadata = [])
    ∧ (∀ sid tr tid ts,
        (AgentService._tool_result_to_update sid tr tid ts).update_metadata = [])
    ∧ (∀ u, (StreamHandler.wire_of u).metadata = u.update_metadata) := by
  refine ⟨fun t c ts m => rfl, ?_, fun w e ts => rfl, content_block_metadata_empty,
    fun sid tr tid ts => rfl, fun u => rfl⟩
  intro sid run ts u hu
  rw [AgentService.process_message] at hu
  rcases List.mem_cons.mp hu with h | h
  · rw [h]
    rfl
  rcases List.mem_append.mp h with h | h
  · rcases List.mem_append.mp h with h | h
    · rcases List.mem_append.mp h with h | h
      · rcases List.mem_filterMap.mp h with ⟨b, _, hb⟩
        exact content_block_metadata_empty sid ts b u hb
      · rcases List.mem_map.mp h with ⟨p, _, hp⟩
        rw [← hp]
        rfl
    · cases hf : run.failure with
      | some e =>
        rw [hf] at h
        rw [List.mem_singleton.mp h]
        rfl
      | none =>
        rw [hf] at h
        simp at h
  · rw [List.mem_singleton.mp h]
    rfl

/-- Witness for `core_updates_metadata_empty`: a concrete constructor
call and a concrete member of a produced update sequence. -/
theorem core_updates_metadata_empty_witness :
    (AgentUpdate.mkWithMetadataKw UpdateType.error "e" 0
        [("k", MetaVal.s "v")]).update_metadata = []
    ∧ firstUpdateEx ∈ AgentService.process_message "s" engineRunEx 0
    ∧ firstUpdateEx.update_metadata = [] :=
  ⟨core_updates_metadata_empty.1 UpdateType.error "e" 0 [("k", MetaVal.s "v")],
   by decide,
   core_updates_metadata_empty.2.1 "s" engineRunEx 0 firstUpdateEx (by decide)⟩
